import Mathlib

/-!
Shallow embedding of the Whitted-integrator core of `rs_pbrt`
(`src/integrators/whitted.rs`, `src/materials/mirror.rs`, `src/materials/uber.rs`).

Machine floats (`Float = f32`) are modelled by the rationals: every claim
checked here is about control flow, branch conditions, accumulation structure
and arena bookkeeping of the code, never about rounding.  External
collaborators living outside the three embedded source files (scene
intersection, lights, textures, the `Bsdf`/`Bxdf` evaluation machinery of
`core/reflection.rs`, samplers) are modelled behaviourally; every such
definition carries a doc comment starting with `Modelled from the spec:`.
-/

namespace RsPbrt

/-- The source's `Float` (an `f32`); modelled by the rationals. -/
abbrev Float := ℚ

/-! ## Spectrum and vector primitives (external leaf types, `core/pbrt.rs`,
`core/geometry.rs`) -/

/-- Modelled from the spec: the fixed three-channel RGB spectrum type
(`Spectrum = RGBSpectrum`), a leaf numeric type consumed by the core. -/
structure Spectrum where
  c0 : Float
  c1 : Float
  c2 : Float
deriving DecidableEq, Repr

namespace Spectrum

/-- `Spectrum::new(v)`: all channels set to `v`. -/
def new (v : Float) : Spectrum := ⟨v, v, v⟩

instance : Zero Spectrum := ⟨new 0⟩

instance : Add Spectrum := ⟨fun a b => ⟨a.c0 + b.c0, a.c1 + b.c1, a.c2 + b.c2⟩⟩

instance : Sub Spectrum := ⟨fun a b => ⟨a.c0 - b.c0, a.c1 - b.c1, a.c2 - b.c2⟩⟩

instance : Mul Spectrum := ⟨fun a b => ⟨a.c0 * b.c0, a.c1 * b.c1, a.c2 * b.c2⟩⟩

instance : HMul Spectrum Float Spectrum := ⟨fun a k => ⟨a.c0 * k, a.c1 * k, a.c2 * k⟩⟩

instance : HDiv Spectrum Float Spectrum := ⟨fun a k => ⟨a.c0 / k, a.c1 / k, a.c2 / k⟩⟩

/-- `Spectrum::is_black`: every channel is zero. -/
def is_black (s : Spectrum) : Bool :=
  s.c0 == 0 && s.c1 == 0 && s.c2 == 0

/-- The source's `Spectrum::clamp(low, INFINITY)`: channelwise lower clamp.
The upper bound is `f32::INFINITY` in every call site embedded here, which is
vacuous over the rationals, so only the lower bound is kept. -/
def clamp (s : Spectrum) (low : Float) : Spectrum :=
  ⟨max s.c0 low, max s.c1 low, max s.c2 low⟩

/-- Channelwise non-negativity, as a boolean. -/
def nonnegb (s : Spectrum) : Bool :=
  decide (0 ≤ s.c0) && decide (0 ≤ s.c1) && decide (0 ≤ s.c2)

end Spectrum

/-- Modelled from the spec: `Vector3f` (also standing in for `Point3f` and
`Normal3f`, whose componentwise arithmetic is identical; `Vector3f::from` on a
normal is the identity here). -/
structure Vec3 where
  x : Float
  y : Float
  z : Float
deriving DecidableEq, Repr

namespace Vec3

instance : Zero Vec3 := ⟨⟨0, 0, 0⟩⟩

instance : Add Vec3 := ⟨fun a b => ⟨a.x + b.x, a.y + b.y, a.z + b.z⟩⟩

instance : Sub Vec3 := ⟨fun a b => ⟨a.x - b.x, a.y - b.y, a.z - b.z⟩⟩

instance : Neg Vec3 := ⟨fun a => ⟨-a.x, -a.y, -a.z⟩⟩

instance : HMul Vec3 Float Vec3 := ⟨fun a k => ⟨a.x * k, a.y * k, a.z * k⟩⟩

end Vec3

/-- `vec3_dot_nrmf` of `core/geometry.rs`: dot product of a vector with a
normal (normals are modelled as `Vec3`). -/
def vec3_dot_nrmf (v n : Vec3) : Float :=
  v.x * n.x + v.y * n.y + v.z * n.z

/-- `vec3_abs_dot_nrmf` of `core/geometry.rs`. -/
def vec3_abs_dot_nrmf (v n : Vec3) : Float :=
  |vec3_dot_nrmf v n|

/-! ## Structural scattering-lobe model (`core/reflection.rs` data, as
constructed by the material compilers under `src/materials/`) -/

/-- `TransportMode` of `core/material.rs`. -/
inductive TransportMode
  | Radiance
  | Importance
deriving DecidableEq, Repr

/-- Modelled from the spec: the closed set of Fresnel policies used by the two
embedded compilers (`FresnelNoOp`, `FresnelDielectric`). -/
inductive Fresnel
  | NoOp
  | Dielectric (eta_i eta_t : Float)
deriving DecidableEq, Repr

/-- Modelled from the spec: the microfacet distribution descriptor
(`TrowbridgeReitzDistribution::new(alpha_x, alpha_y, sample_visible_area)`). -/
inductive MicrofacetDistribution
  | TrowbridgeReitz (alpha_x alpha_y : Float) (sample_visible_area : Bool)
deriving DecidableEq, Repr

/-- Modelled from the spec: the tagged scattering-lobe variants appended by the
mirror and uber compilers, carrying exactly the constructor arguments the
source passes (`SpecularReflection::new`, `SpecularTransmission::new`,
`LambertianReflection::new`, `MicrofacetReflection::new`). -/
inductive Bxdf
  | SpecRefl (r : Spectrum) (fresnel : Fresnel) (sc_opt : Option Spectrum)
  | SpecTrans (t : Spectrum) (eta_a eta_b : Float) (mode : TransportMode)
      (sc_opt : Option Spectrum)
  | LambertianRefl (r : Spectrum) (sc_opt : Option Spectrum)
  | MicrofacetRefl (r : Spectrum) (distribution : MicrofacetDistribution)
      (fresnel : Fresnel) (sc_opt : Option Spectrum)
deriving DecidableEq, Repr

/-- The reflectance/transmittance spectrum driving a lobe (the first
constructor argument in every variant). -/
def Bxdf.driving : Bxdf → Spectrum
  | .SpecRefl r _ _ => r
  | .SpecTrans t _ _ _ _ => t
  | .LambertianRefl r _ => r
  | .MicrofacetRefl r _ _ _ => r

/-- Whether a lobe is a specular-transmission lobe. -/
def Bxdf.isSpecTrans : Bxdf → Bool
  | .SpecTrans _ _ _ _ _ => true
  | _ => false

/-- The composed BSDF as built by `UberMaterial::compute_scattering_functions`
(`Bsdf::new(si, eta)` plus `Bsdf::add(arena_bxdf.len() - 1)`): a relative
refraction index, the shading normal captured from the interaction, and the
arena indices of its lobes. -/
structure Bsdf where
  ns : Vec3
  eta : Float
  bxdfs : List Nat
deriving DecidableEq, Repr

/-- The composed BSDF as built by `MirrorMaterial::compute_scattering_functions`
in `mirror.rs`, where `Bsdf::add` receives the `Bxdf` value itself (no `Bxdf`
arena parameter exists in that compiler's signature). -/
structure MirrorBsdf where
  ns : Vec3
  eta : Float
  bxdfs : List Bxdf
deriving DecidableEq, Repr

/-! ## Surface interactions (`core/interaction.rs`, external) -/

/-- Modelled from the spec: the result record of `Bsdf::sample_f` — the BSDF
value `f`, the sampled incident direction `wi` (written through an out
parameter in the source), the sampling density `pdf`, and the sampled lobe
type. -/
structure SampleFResult where
  f : Spectrum
  wi : Vec3
  pdf : Float
  sampled_type : Nat
deriving Repr

/-- Modelled from the spec: the behavioural view of one composed BSDF arena
entry as the integrator consumes it — the relative refraction index `eta`, the
full lobe-sum evaluation `f(wo, wi, flags)`, and the lobe sampling routine
`sample_f(wo, u, flags)` (`core/reflection.rs` is outside the embedded
sources). -/
structure BsdfSpec where
  eta : Float
  f : Vec3 → Vec3 → Nat → Spectrum
  sample_f : Vec3 → Float × Float → Nat → SampleFResult

/-- The shading geometry of a surface interaction (`isect.shading`):
shading normal and the normal's parametric derivatives. -/
structure Shading where
  n : Vec3
  dndu : Vec3
  dndv : Vec3
deriving Repr

/-- `InteractionCommon`: the position and outgoing direction of a hit. -/
structure InteractionCommon where
  p : Vec3
  wo : Vec3
deriving Repr

/-- Modelled from the spec: the outcome that
`SurfaceInteraction::compute_scattering_functions` produces for a hit — the
(possibly bump-perturbed) shading frame and the behavioural BSDF appended to
the arena. -/
structure Compiled where
  shading : Shading
  bsdf : BsdfSpec

/-- Modelled from the spec: `SurfaceInteraction` as the integrator reads it —
hit geometry, screen-space differentials, emitted radiance `le(wo)` (area
lights, external), the material-compilation outcome `csf` (`none` models a
pass-through surface producing no BSDF), and the optional BSDF arena handle
(`none` until compilation). -/
structure SurfaceInteractionData where
  common : InteractionCommon
  shading : Shading
  dpdx : Vec3
  dpdy : Vec3
  dudx : Float
  dvdx : Float
  dudy : Float
  dvdy : Float
  le : Vec3 → Spectrum
  csf : Option Compiled
  bsdf : Option Nat

/-- Modelled from the spec: `SurfaceInteraction::get_bsdf(arena_bsdf)` resolves
the interaction's optional arena handle in the BSDF arena. -/
def SurfaceInteractionData.get_bsdf (isect : SurfaceInteractionData)
    (arena : List BsdfSpec) : Option BsdfSpec :=
  match isect.bsdf with
  | none => none
  | some i => arena[i]?

/-! ## Material compilers (`src/materials/mirror.rs`, `src/materials/uber.rs`) -/

/-- A spectrum-valued texture bound to an interaction (external,
`core/texture.rs`): only its evaluation at the interaction matters here. -/
abbrev TextureSpectrum := SurfaceInteractionData → Spectrum

/-- A float-valued texture bound to an interaction (external). -/
abbrev TextureFloat := SurfaceInteractionData → Float

/-- Modelled from the spec: the external helpers the compilers call that live
outside the embedded sources — `Material::bump` (perturbs the shading frame in
place before any lobe is built) and
`TrowbridgeReitzDistribution::roughness_to_alpha` (perceptually-uniform
roughness remap). -/
structure MaterialExternals where
  bump : TextureFloat → SurfaceInteractionData → SurfaceInteractionData
  roughness_to_alpha : Float → Float

/-- The bump-mapping step shared by both compilers: the interaction on which
every texture is subsequently evaluated. -/
def postBump (bump_map : Option TextureFloat) (ext : MaterialExternals)
    (si : SurfaceInteractionData) : SurfaceInteractionData :=
  match bump_map with
  | some b => ext.bump b si
  | none => si

/-- `MirrorMaterial` (`mirror.rs`): reflectance texture and optional bump map. -/
structure MirrorMaterial where
  kr : TextureSpectrum
  bump_map : Option TextureFloat

/-- `MirrorMaterial::compute_scattering_functions` (`mirror.rs` lines 34-69):
optionally bump-map, clamp the reflectance texture to `[0, ∞)`, build a BSDF
with relative index `1.0`, unconditionally add one `SpecularReflection` lobe
with the no-op Fresnel (scaled when a scale spectrum is given), push the BSDF
into the arena and write its index into the interaction. -/
def MirrorMaterial.compute_scattering_functions (m : MirrorMaterial)
    (ext : MaterialExternals) (si : SurfaceInteractionData)
    (arena : List MirrorBsdf) (_mode : TransportMode)
    (_allow_multiple_lobes : Bool) (scale_opt : Option Spectrum) :
    SurfaceInteractionData × List MirrorBsdf :=
  let use_scale : Bool := scale_opt.isSome
  let sc : Spectrum := scale_opt.getD 0
  let si := postBump m.bump_map ext si
  let r : Spectrum := (m.kr si).clamp 0
  let bsdf : MirrorBsdf := { ns := si.shading.n, eta := 1, bxdfs := [] }
  let fresnel : Fresnel := Fresnel.NoOp
  let bsdf := if use_scale then
      { bsdf with bxdfs := bsdf.bxdfs ++ [Bxdf.SpecRefl r fresnel (some sc)] }
    else
      { bsdf with bxdfs := bsdf.bxdfs ++ [Bxdf.SpecRefl r fresnel none] }
  let arena := arena ++ [bsdf]
  ({ si with bsdf := some (arena.length - 1) }, arena)

/-- `UberMaterial` (`uber.rs`): its texture parameters and flags. -/
structure UberMaterial where
  kd : TextureSpectrum
  ks : TextureSpectrum
  kr : TextureSpectrum
  kt : TextureSpectrum
  opacity : TextureSpectrum
  roughness : TextureFloat
  u_roughness : Option TextureFloat
  v_roughness : Option TextureFloat
  eta : TextureFloat
  bump_map : Option TextureFloat
  remap_roughness : Bool

/-- `UberMaterial::compute_scattering_functions` (`uber.rs` lines 114-270):
evaluate and clamp the textures, scale `kd/ks/kr/kt` by the clamped opacity,
build the BSDF with relative index `1.0` when the opacity-derived
transmittance `t` is non-black and `eta` otherwise, then conditionally append
the five lobes (opacity transmission, Lambertian, microfacet reflection,
specular reflection, specular transmission), each only when its driving
spectrum is non-black; finally push the composed BSDF and write its arena
index into the interaction.  Each conditional push-and-add of the source is
rendered as two `if`s with the same condition (one extending the lobe arena,
one extending the BSDF's index list). -/
def UberMaterial.compute_scattering_functions (m : UberMaterial)
    (ext : MaterialExternals) (si : SurfaceInteractionData)
    (arena_bsdf : List Bsdf) (arena_bxdf : List Bxdf) (mode : TransportMode)
    (_allow_multiple_lobes : Bool) (scale_opt : Option Spectrum) :
    SurfaceInteractionData × List Bsdf × List Bxdf :=
  let use_scale : Bool := scale_opt.isSome
  let sc : Spectrum := scale_opt.getD 0
  let sc_opt : Option Spectrum := if use_scale then some sc else none
  let si := postBump m.bump_map ext si
  let e : Float := m.eta si
  let op : Spectrum := (m.opacity si).clamp 0
  let t : Spectrum := (Spectrum.new 1 - op).clamp 0
  let kd : Spectrum := op * (m.kd si).clamp 0
  let ks : Spectrum := op * (m.ks si).clamp 0
  let u_rough : Float := match m.u_roughness with
    | some ur => ur si
    | none => m.roughness si
  let v_rough : Float := match m.v_roughness with
    | some vr => vr si
    | none => m.roughness si
  let kr : Spectrum := op * (m.kr si).clamp 0
  let kt : Spectrum := op * (m.kt si).clamp 0
  let bsdf : Bsdf := if t.is_black = false then
      { ns := si.shading.n, eta := 1, bxdfs := [] }
    else
      { ns := si.shading.n, eta := e, bxdfs := [] }
  let ab1 : List Bxdf := if t.is_black = false then
      arena_bxdf ++ [Bxdf.SpecTrans t 1 1 mode sc_opt] else arena_bxdf
  let bsdf := if t.is_black = false then
      { bsdf with bxdfs := bsdf.bxdfs ++ [ab1.length - 1] } else bsdf
  let ab2 : List Bxdf := if kd.is_black = false then
      ab1 ++ [Bxdf.LambertianRefl kd sc_opt] else ab1
  let bsdf := if kd.is_black = false then
      { bsdf with bxdfs := bsdf.bxdfs ++ [ab2.length - 1] } else bsdf
  let fresnel_ks : Fresnel := Fresnel.Dielectric 1 e
  let u_rough := if m.remap_roughness then ext.roughness_to_alpha u_rough else u_rough
  let v_rough := if m.remap_roughness then ext.roughness_to_alpha v_rough else v_rough
  let distrib : MicrofacetDistribution :=
    MicrofacetDistribution.TrowbridgeReitz u_rough v_rough true
  let ab3 : List Bxdf := if ks.is_black = false then
      ab2 ++ [Bxdf.MicrofacetRefl ks distrib fresnel_ks sc_opt] else ab2
  let bsdf := if ks.is_black = false then
      { bsdf with bxdfs := bsdf.bxdfs ++ [ab3.length - 1] } else bsdf
  let fresnel_kr : Fresnel := Fresnel.Dielectric 1 e
  let ab4 : List Bxdf := if kr.is_black = false then
      ab3 ++ [Bxdf.SpecRefl kr fresnel_kr sc_opt] else ab3
  let bsdf := if kr.is_black = false then
      { bsdf with bxdfs := bsdf.bxdfs ++ [ab4.length - 1] } else bsdf
  let ab5 : List Bxdf := if kt.is_black = false then
      ab4 ++ [Bxdf.SpecTrans kt 1 e mode sc_opt] else ab4
  let bsdf := if kt.is_black = false then
      { bsdf with bxdfs := bsdf.bxdfs ++ [ab5.length - 1] } else bsdf
  let arena_bsdf := arena_bsdf ++ [bsdf]
  ({ si with bsdf := some (arena_bsdf.length - 1) }, arena_bsdf, ab5)

/-! ## Integrator model (`src/integrators/whitted.rs`) -/

/-- Modelled from the spec: the `BxdfType` bit flags of `core/reflection.rs`
(`BsdfReflection`, `BsdfTransmission`, `BsdfSpecular`, `BsdfAll`); the claims
depend only on which flag sets the integrator passes, not on the values. -/
def BsdfReflection : Nat := 1

/-- Modelled from the spec: see `BsdfReflection`. -/
def BsdfTransmission : Nat := 2

/-- Modelled from the spec: see `BsdfReflection`. -/
def BsdfSpecular : Nat := 16

/-- Modelled from the spec: see `BsdfReflection`. -/
def BsdfAll : Nat := 31

/-- `RayDifferential`: the auxiliary screen-space-offset ray pair. -/
structure RayDifferential where
  rx_origin : Vec3
  ry_origin : Vec3
  rx_direction : Vec3
  ry_direction : Vec3
deriving Repr

/-- `Ray`: origin, direction and the optional differential. -/
structure Ray where
  o : Vec3
  d : Vec3
  differential : Option RayDifferential
deriving Repr

/-- Modelled from the spec: `Interaction::spawn_ray` builds a ray leaving the
hit point in the given direction; a spawned ray carries no differential (the
integrator attaches one afterwards when the parent ray had one). -/
def SurfaceInteractionData.spawn_ray (isect : SurfaceInteractionData)
    (d : Vec3) : Ray :=
  { o := isect.common.p, d := d, differential := none }

/-- Modelled from the spec: one candidate light sample as produced by
`Light::sample_li` — incident radiance, direction `wi`, density `pdf`
(written through out parameters in the source) and the outcome of the bound
visibility test `VisibilityTester::unoccluded(scene)`. -/
structure LiSample where
  li : Spectrum
  wi : Vec3
  pdf : Float
  unoccluded : Bool

/-- Modelled from the spec: a scene light — `sample_li` at an interaction with
a 2D sample, and `le(ray)` (environment contribution on a miss). -/
structure Light where
  sample_li : InteractionCommon → Float × Float → LiSample
  le : Ray → Spectrum

/-- Modelled from the spec: the scene interface the integrator consumes —
`intersect(ray)` and the light list.  A fresh intersection record always has
`bsdf = none` and the `csf` field describes what material compilation will do
at that hit. -/
structure Scene where
  intersect : Ray → Option SurfaceInteractionData
  lights : List Light

/-- Modelled from the spec: the stateful sampler is a stream of 2D sample
pairs consumed one pull per `get_2d` call; the integrator state tracks the
next stream position. -/
abbrev Sampler := Nat → Float × Float

/-- The mutable state threaded through `li`: the sampler position and the
append-only behavioural BSDF arena (`arena_bsdf`; the `Bxdf` arena of the
source is folded into the behavioural `BsdfSpec` entries). -/
structure IState where
  samplerIdx : Nat
  arenaBsdf : List BsdfSpec

/-- `WhittedIntegrator`: only `max_depth` (a `u32` in the source; the `i32`
depth argument is modelled as `ℕ`, matching the source's `depth as u32` cast
on the values the integrator actually passes) is relevant to the claims;
camera, sampler and pixel bounds are external. -/
structure WhittedIntegrator where
  max_depth : Nat

/-- How a run of the embedded integrator can fail: `outOfFuel` is the fuel
artifact of the shallow embedding (the source's pass-through recursion has no
termination guarantee), `panicked` models the `panic!("no isect.bsdf found")`
abort. -/
inductive RunError
  | outOfFuel
  | panicked
deriving DecidableEq, Repr

/-- Modelled from the spec: `SurfaceInteraction::compute_scattering_functions`
dispatches to the hit material's compiler, which either produces no BSDF
(pass-through: the interaction keeps `bsdf = none` and the arena is untouched)
or appends exactly one composed BSDF to the arena and writes its index into
the interaction, possibly bump-perturbing the shading frame. -/
def computeScatteringFunctions (isect : SurfaceInteractionData)
    (arena : List BsdfSpec) : SurfaceInteractionData × List BsdfSpec :=
  match isect.csf with
  | none => ({ isect with bsdf := none }, arena)
  | some comp =>
    ({ isect with shading := comp.shading, bsdf := some arena.length },
      arena ++ [comp.bsdf])

/-- The direct-lighting loop of `WhittedIntegrator::li` (`whitted.rs` lines
80-105): for each light pull one 2D sample and draw one light sample; skip the
light when its radiance is black or its pdf is zero; otherwise resolve the
interaction's BSDF handle (aborting like the source's
`panic!("no isect.bsdf found")` when it cannot be resolved), evaluate the BSDF
over all lobes and, when that value is non-black and the sample unoccluded,
accumulate `f * li * abs_dot(wi, n) / pdf`. -/
def directLoop (sampler : Sampler) (isect : SurfaceInteractionData)
    (n wo : Vec3) (lights : List Light) (l : Spectrum) (st : IState) :
    Except RunError (Spectrum × IState) :=
  match lights with
  | [] => .ok (l, st)
  | light :: rest =>
    let u := sampler st.samplerIdx
    let st := { st with samplerIdx := st.samplerIdx + 1 }
    let s := light.sample_li isect.common u
    if s.li.is_black = true ∨ s.pdf = 0 then
      directLoop sampler isect n wo rest l st
    else
      match isect.get_bsdf st.arenaBsdf with
      | some bsdf =>
        let f := bsdf.f wo s.wi BsdfAll
        let l := if f.is_black = false ∧ s.unoccluded = true then
            l + f * s.li * vec3_abs_dot_nrmf s.wi n / s.pdf
          else l
        directLoop sampler isect n wo rest l st
      | none => .error .panicked

/-- The reflected ray spawned by `WhittedIntegrator::specular_reflect`
(`whitted.rs` lines 159-182): leaves the hit point along `wi` and, exactly
when the parent ray carried a differential, carries the specular-reflection
differential computed from the surface's stored partial derivatives. -/
def reflect_ray_differential (ray : Ray) (isect : SurfaceInteractionData)
    (wi : Vec3) : Ray :=
  let wo := isect.common.wo
  let ns := isect.shading.n
  let rd0 := isect.spawn_ray wi
  match ray.differential with
  | none => rd0
  | some d =>
    let dndx := isect.shading.dndu * isect.dudx + isect.shading.dndv * isect.dvdx
    let dndy := isect.shading.dndu * isect.dudy + isect.shading.dndv * isect.dvdy
    let dwodx := -d.rx_direction - wo
    let dwody := -d.ry_direction - wo
    let ddndx := vec3_dot_nrmf dwodx ns + vec3_dot_nrmf wo dndx
    let ddndy := vec3_dot_nrmf dwody ns + vec3_dot_nrmf wo dndy
    let diff : RayDifferential :=
      { rx_origin := isect.common.p + isect.dpdx
        ry_origin := isect.common.p + isect.dpdy
        rx_direction := wi - dwodx +
          (dndx * vec3_dot_nrmf wo ns + ns * ddndx) * (2 : Float)
        ry_direction := wi - dwody +
          (dndy * vec3_dot_nrmf wo ns + ns * ddndy) * (2 : Float) }
    { rd0 with differential := some diff }

/-- The transmitted ray spawned by `WhittedIntegrator::specular_transmit`
(`whitted.rs` lines 221-251): leaves the hit point along `wi` and, exactly
when the parent ray carried a differential, carries the specular-transmission
differential (`eta` inverted when the ray exits the surface, `mu`-based
transport terms). -/
def transmit_ray_differential (ray : Ray) (isect : SurfaceInteractionData)
    (bsdf_eta : Float) (wi : Vec3) : Ray :=
  let wo := isect.common.wo
  let ns := isect.shading.n
  let rd0 := isect.spawn_ray wi
  match ray.differential with
  | none => rd0
  | some d =>
    let eta0 := bsdf_eta
    let w := -wo
    let eta := if vec3_dot_nrmf wo ns < 0 then 1 / eta0 else eta0
    let dndx := isect.shading.dndu * isect.dudx + isect.shading.dndv * isect.dvdx
    let dndy := isect.shading.dndu * isect.dudy + isect.shading.dndv * isect.dvdy
    let dwodx := -d.rx_direction - wo
    let dwody := -d.ry_direction - wo
    let ddndx := vec3_dot_nrmf dwodx ns + vec3_dot_nrmf wo dndx
    let ddndy := vec3_dot_nrmf dwody ns + vec3_dot_nrmf wo dndy
    let mu := eta * vec3_dot_nrmf w ns - vec3_dot_nrmf wi ns
    let dmudx :=
      (eta - (eta * eta * vec3_dot_nrmf w ns) / vec3_dot_nrmf wi ns) * ddndx
    let dmudy :=
      (eta - (eta * eta * vec3_dot_nrmf w ns) / vec3_dot_nrmf wi ns) * ddndy
    let diff : RayDifferential :=
      { rx_origin := isect.common.p + isect.dpdx
        ry_origin := isect.common.p + isect.dpdy
        rx_direction := wi + dwodx * eta - (dndx * mu + ns * dmudx)
        ry_direction := wi + dwody * eta - (dndy * mu + ns * dmudy) }
    { rd0 with differential := some diff }

/-- The body of `WhittedIntegrator::specular_reflect` (`whitted.rs` lines
130-191), abstracted over the recursive radiance call `liNext` (which the
source makes as `self.li(..., depth + 1)`): sample one (reflection ∧ specular)
direction; when the density is positive, the BSDF value non-black and the
geometric term non-zero, spawn the reflected ray and recurse, weighting by
`abs_dot(wi, ns) / pdf`; otherwise return the zero spectrum. -/
def specularBodyR (sampler : Sampler)
    (liNext : Ray → IState → Except RunError (Spectrum × IState))
    (ray : Ray) (isect : SurfaceInteractionData) (st : IState) :
    Except RunError (Spectrum × IState) :=
  let wo := isect.common.wo
  let ns := isect.shading.n
  let bsdf_flags := BsdfReflection ||| BsdfSpecular
  match isect.get_bsdf st.arenaBsdf with
  | some bsdf =>
    let u := sampler st.samplerIdx
    let st1 : IState := { st with samplerIdx := st.samplerIdx + 1 }
    let r := bsdf.sample_f wo u bsdf_flags
    if 0 < r.pdf ∧ r.f.is_black = false ∧ vec3_abs_dot_nrmf r.wi ns ≠ 0 then
      Except.map
        (fun p => (r.f * p.1 * Spectrum.new (vec3_abs_dot_nrmf r.wi ns / r.pdf), p.2))
        (liNext (reflect_ray_differential ray isect r.wi) st1)
    else .ok (Spectrum.new 0, st1)
  | none => .ok (Spectrum.new 0, st)

/-- The body of `WhittedIntegrator::specular_transmit` (`whitted.rs` lines
192-260), abstracted over the recursive radiance call `liNext`: the
transmission analogue of `specularBodyR`, sampling (transmission ∧ specular)
lobes and, for the differential, inverting `eta` when the ray exits the
surface and using the `mu`/`dmudx`/`dmudy` transmission transport terms. -/
def specularBodyT (sampler : Sampler)
    (liNext : Ray → IState → Except RunError (Spectrum × IState))
    (ray : Ray) (isect : SurfaceInteractionData) (st : IState) :
    Except RunError (Spectrum × IState) :=
  let wo := isect.common.wo
  let ns := isect.shading.n
  let bsdf_flags := BsdfTransmission ||| BsdfSpecular
  match isect.get_bsdf st.arenaBsdf with
  | some bsdf =>
    let u := sampler st.samplerIdx
    let st1 : IState := { st with samplerIdx := st.samplerIdx + 1 }
    let r := bsdf.sample_f wo u bsdf_flags
    if 0 < r.pdf ∧ r.f.is_black = false ∧ vec3_abs_dot_nrmf r.wi ns ≠ 0 then
      Except.map
        (fun p => (r.f * p.1 * Spectrum.new (vec3_abs_dot_nrmf r.wi ns / r.pdf), p.2))
        (liNext (transmit_ray_differential ray isect bsdf.eta r.wi) st1)
    else .ok (Spectrum.new 0, st1)
  | none => .ok (Spectrum.new 0, st)

/-- `WhittedIntegrator::li` (`whitted.rs` lines 42-120), with an explicit fuel
parameter bounding the recursion of the shallow embedding (structural on fuel
so the definition computes): on a miss, sum the lights' `le(ray)`; on a hit,
capture `n` and `wo`, compile the material's scattering functions, recurse at
the same depth along the unmodified ray direction when no BSDF results,
otherwise add emitted radiance, run the direct-lighting loop, and when
`depth + 1 < max_depth` add the specular reflection and transmission
contributions, each recursing at `depth + 1`. -/
def li (integ : WhittedIntegrator) (scene : Scene) (sampler : Sampler) :
    Nat → Ray → IState → Nat → Except RunError (Spectrum × IState)
  | 0, _, _, _ => .error .outOfFuel
  | fuel + 1, ray, st, depth =>
    match scene.intersect ray with
    | some isect0 =>
      let n := isect0.shading.n
      let wo := isect0.common.wo
      let res := computeScatteringFunctions isect0 st.arenaBsdf
      let isect := res.1
      let st1 : IState := { st with arenaBsdf := res.2 }
      match isect.bsdf with
      | none => li integ scene sampler fuel (isect.spawn_ray ray.d) st1 depth
      | some _ =>
        Except.bind (directLoop sampler isect n wo scene.lights (isect.le wo) st1)
          (fun ld2 =>
            if depth + 1 < integ.max_depth then
              Except.bind (specularBodyR sampler
                  (fun r s => li integ scene sampler fuel r s (depth + 1))
                  ray isect ld2.2)
                (fun lr3 =>
                  Except.map (fun lt4 => (ld2.1 + lr3.1 + lt4.1, lt4.2))
                    (specularBodyT sampler
                      (fun r s => li integ scene sampler fuel r s (depth + 1))
                      ray isect lr3.2))
            else .ok ld2)
    | none =>
      .ok (scene.lights.foldl (fun l light => l + light.le ray) 0, st)

/-- `WhittedIntegrator::specular_reflect` as a standalone entry point: its
body with the recursive call being `li` at `depth + 1`, exactly as `li`
invokes it. -/
def specular_reflect (integ : WhittedIntegrator) (scene : Scene)
    (sampler : Sampler) (fuel : Nat) (ray : Ray)
    (isect : SurfaceInteractionData) (st : IState) (depth : Nat) :
    Except RunError (Spectrum × IState) :=
  specularBodyR sampler (fun r s => li integ scene sampler fuel r s (depth + 1))
    ray isect st

/-- `WhittedIntegrator::specular_transmit` as a standalone entry point: its
body with the recursive call being `li` at `depth + 1`, exactly as `li`
invokes it. -/
def specular_transmit (integ : WhittedIntegrator) (scene : Scene)
    (sampler : Sampler) (fuel : Nat) (ray : Ray)
    (isect : SurfaceInteractionData) (st : IState) (depth : Nat) :
    Except RunError (Spectrum × IState) :=
  specularBodyT sampler (fun r s => li integ scene sampler fuel r s (depth + 1))
    ray isect st

/-! ## Specification-side formulas

The following definitions restate, in the spec's words, what the code is
claimed to compute; the claim theorems equate the embedded code with them. -/

/-- Specification formula for one light's direct-lighting contribution: draw
one sample; the contribution is zero when the sampled radiance is black or
`pdf = 0`, and also when the BSDF value is black or the sample occluded;
otherwise it is `f(wo, wi) * Li * abs_dot(wi, n) / pdf`. -/
def lightTerm (bsdf : BsdfSpec) (common : InteractionCommon) (n wo : Vec3)
    (light : Light) (u : Float × Float) : Spectrum :=
  let s := light.sample_li common u
  if s.li.is_black = true ∨ s.pdf = 0 then 0
  else
    let f := bsdf.f wo s.wi BsdfAll
    if f.is_black = false ∧ s.unoccluded = true then
      f * s.li * vec3_abs_dot_nrmf s.wi n / s.pdf
    else 0

/-- Specification formula for the whole direct-lighting stage: the sum of
per-light terms, light `i` consuming exactly the sampler's stream entry
`i₀ + i` (one 2D pull per light). -/
def lightTermsSum (sampler : Sampler) (bsdf : BsdfSpec)
    (common : InteractionCommon) (n wo : Vec3) :
    List Light → Nat → Spectrum
  | [], _ => 0
  | light :: rest, i =>
    lightTerm bsdf common n wo light (sampler i) +
      lightTermsSum sampler bsdf common n wo rest (i + 1)

/-- Safety of one run result relative to the entry arena: an error is never
the panic, and a normal result's arena is an extension of the entry arena. -/
def SafeRes (base : List BsdfSpec) : Except RunError (Spectrum × IState) → Prop
  | .error e => e ≠ .panicked
  | .ok p => ∃ tl, p.2.arenaBsdf = base ++ tl

/-! ## Specification-side formulas for the material compilers -/

/-- The interaction the uber compiler evaluates its textures on (after the
optional bump perturbation). -/
def uberSi (m : UberMaterial) (ext : MaterialExternals)
    (si : SurfaceInteractionData) : SurfaceInteractionData :=
  postBump m.bump_map ext si

/-- The evaluated index of refraction `e`. -/
def uberE (m : UberMaterial) (ext : MaterialExternals)
    (si : SurfaceInteractionData) : Float :=
  m.eta (uberSi m ext si)

/-- The clamped opacity `op`. -/
def uberOp (m : UberMaterial) (ext : MaterialExternals)
    (si : SurfaceInteractionData) : Spectrum :=
  (m.opacity (uberSi m ext si)).clamp 0

/-- The opacity-derived transmittance `t = clamp(1 - op, 0, ∞)`. -/
def uberT (m : UberMaterial) (ext : MaterialExternals)
    (si : SurfaceInteractionData) : Spectrum :=
  (Spectrum.new 1 - uberOp m ext si).clamp 0

/-- The opacity-scaled diffuse reflectance `kd`. -/
def uberKd (m : UberMaterial) (ext : MaterialExternals)
    (si : SurfaceInteractionData) : Spectrum :=
  uberOp m ext si * (m.kd (uberSi m ext si)).clamp 0

/-- The opacity-scaled glossy reflectance `ks`. -/
def uberKs (m : UberMaterial) (ext : MaterialExternals)
    (si : SurfaceInteractionData) : Spectrum :=
  uberOp m ext si * (m.ks (uberSi m ext si)).clamp 0

/-- The opacity-scaled specular reflectance `kr`. -/
def uberKr (m : UberMaterial) (ext : MaterialExternals)
    (si : SurfaceInteractionData) : Spectrum :=
  uberOp m ext si * (m.kr (uberSi m ext si)).clamp 0

/-- The opacity-scaled specular transmittance `kt`. -/
def uberKt (m : UberMaterial) (ext : MaterialExternals)
    (si : SurfaceInteractionData) : Spectrum :=
  uberOp m ext si * (m.kt (uberSi m ext si)).clamp 0

/-- The evaluated `u` roughness before any remap. -/
def uberURough (m : UberMaterial) (ext : MaterialExternals)
    (si : SurfaceInteractionData) : Float :=
  match m.u_roughness with
  | some ur => ur (uberSi m ext si)
  | none => m.roughness (uberSi m ext si)

/-- The evaluated `v` roughness before any remap. -/
def uberVRough (m : UberMaterial) (ext : MaterialExternals)
    (si : SurfaceInteractionData) : Float :=
  match m.v_roughness with
  | some vr => vr (uberSi m ext si)
  | none => m.roughness (uberSi m ext si)

/-- The microfacet alpha in `u` (perceptual remap applied when configured). -/
def uberAlphaU (m : UberMaterial) (ext : MaterialExternals)
    (si : SurfaceInteractionData) : Float :=
  if m.remap_roughness then ext.roughness_to_alpha (uberURough m ext si)
  else uberURough m ext si

/-- The microfacet alpha in `v` (perceptual remap applied when configured). -/
def uberAlphaV (m : UberMaterial) (ext : MaterialExternals)
    (si : SurfaceInteractionData) : Float :=
  if m.remap_roughness then ext.roughness_to_alpha (uberVRough m ext si)
  else uberVRough m ext si

/-- Specification formula for the lobes the uber compiler appends: each of the
five candidate lobes appears exactly when its driving spectrum is non-black,
in source order. -/
def uberNewLobes (m : UberMaterial) (ext : MaterialExternals)
    (si : SurfaceInteractionData) (mode : TransportMode)
    (scale_opt : Option Spectrum) : List Bxdf :=
  (if (uberT m ext si).is_black = false then
    [Bxdf.SpecTrans (uberT m ext si) 1 1 mode scale_opt] else [])
  ++ (if (uberKd m ext si).is_black = false then
    [Bxdf.LambertianRefl (uberKd m ext si) scale_opt] else [])
  ++ (if (uberKs m ext si).is_black = false then
    [Bxdf.MicrofacetRefl (uberKs m ext si)
      (MicrofacetDistribution.TrowbridgeReitz (uberAlphaU m ext si)
        (uberAlphaV m ext si) true)
      (Fresnel.Dielectric 1 (uberE m ext si)) scale_opt] else [])
  ++ (if (uberKr m ext si).is_black = false then
    [Bxdf.SpecRefl (uberKr m ext si)
      (Fresnel.Dielectric 1 (uberE m ext si)) scale_opt] else [])
  ++ (if (uberKt m ext si).is_black = false then
    [Bxdf.SpecTrans (uberKt m ext si) 1 (uberE m ext si) mode scale_opt] else [])

/-! ## Concrete fixtures used by the witnesses and counterexample -/

/-- A concrete shading frame (normal `(0,0,1)`, flat derivatives). -/
def wShading : Shading := ⟨⟨0, 0, 1⟩, ⟨0, 0, 0⟩, ⟨0, 0, 0⟩⟩

/-- A concrete behavioural BSDF: uniform lobe-sum `1/2`, sampling always
returns `f = 1/4`, `wi = (0,0,1)`, `pdf = 1/2`. -/
def wBsdf : BsdfSpec :=
  { eta := 3/2
    f := fun _ _ _ => Spectrum.new (1/2)
    sample_f := fun _ _ flags =>
      { f := Spectrum.new (1/4), wi := ⟨0, 0, 1⟩, pdf := 1/2,
        sampled_type := flags } }

/-- A concrete light: radiance `2` from `(0,0,1)` with `pdf = 1`, always
unoccluded; background contribution `1/8`. -/
def wLight : Light :=
  { sample_li := fun _ _ =>
      { li := Spectrum.new 2, wi := ⟨0, 0, 1⟩, pdf := 1, unoccluded := true }
    le := fun _ => Spectrum.new (1/8) }

/-- The compilation outcome at the concrete hit. -/
def wComp : Compiled := ⟨wShading, wBsdf⟩

/-- A concrete hit whose material compiles to `wBsdf`. -/
def wIsect : SurfaceInteractionData :=
  { common := ⟨⟨0, 0, 0⟩, ⟨0, 0, 1⟩⟩
    shading := wShading
    dpdx := ⟨0, 0, 0⟩, dpdy := ⟨0, 0, 0⟩
    dudx := 0, dvdx := 0, dudy := 0, dvdy := 0
    le := fun _ => Spectrum.new (1/16)
    csf := some wComp
    bsdf := none }

/-- A concrete pass-through hit (no BSDF results from compilation). -/
def wIsectPass : SurfaceInteractionData := { wIsect with csf := none }

/-- The concrete hit with its arena handle resolved (entry `0`). -/
def wIsectB : SurfaceInteractionData := { wIsect with bsdf := some 0 }

/-- A one-entry arena state matching `wIsectB`. -/
def wStA : IState := ⟨0, [wBsdf]⟩

/-- The empty starting state. -/
def wSt : IState := ⟨0, []⟩

/-- A constant sampler stream. -/
def wSampler : Sampler := fun _ => (1/2, 1/2)

/-- The concrete camera ray. -/
def wRay : Ray := { o := ⟨0, 0, 2⟩, d := ⟨0, 0, -1⟩, differential := none }

/-- A scene in which every ray hits `wIsect`, with one light. -/
def wSceneHit : Scene := { intersect := fun _ => some wIsect, lights := [wLight] }

/-- A scene in which every ray misses, with one light. -/
def wSceneMiss : Scene := { intersect := fun _ => none, lights := [wLight] }

/-- A scene whose first hit (from `wRay`) is a pass-through surface and whose
spawned continuation ray misses. -/
def wScenePass : Scene :=
  { intersect := fun r => if r.o.z == 2 then some wIsectPass else none
    lights := [wLight] }

/-- Identity material externals. -/
def wExt : MaterialExternals :=
  { bump := fun _ s => s, roughness_to_alpha := fun x => x }

/-- A mirror material whose reflectance texture is black everywhere. -/
def wMirrorBlack : MirrorMaterial :=
  { kr := fun _ => Spectrum.new 0, bump_map := none }

/-- An uber material with opacity `1` and `kt = kr = 0` (constant textures). -/
def wUber : UberMaterial :=
  { kd := fun _ => Spectrum.new (1/4)
    ks := fun _ => Spectrum.new (1/4)
    kr := fun _ => Spectrum.new 0
    kt := fun _ => Spectrum.new 0
    opacity := fun _ => Spectrum.new 1
    roughness := fun _ => 1/10
    u_roughness := none
    v_roughness := none
    eta := fun _ => 3/2
    bump_map := none
    remap_roughness := false }

/-- The same uber material with opacity `0` and a non-zero `kr` texture. -/
def wUberO0 : UberMaterial :=
  { wUber with opacity := fun _ => Spectrum.new 0, kr := fun _ => Spectrum.new 5 }

/-- A Whitted integrator with `max_depth = 1`. -/
def wInteg1 : WhittedIntegrator := ⟨1⟩

/-- The concrete sample drawn by `wBsdf` for the reflection flags. -/
def wRV : SampleFResult :=
  wBsdf.sample_f wIsectB.common.wo (wSampler wStA.samplerIdx)
    (BsdfReflection ||| BsdfSpecular)

theorem Spectrum.add_zero' (a : Spectrum) : a + 0 = a := by
  cases a with
  | mk x y z =>
    show Spectrum.mk (x + 0) (y + 0) (z + 0) = Spectrum.mk x y z
    rw [add_zero, add_zero, add_zero]

theorem Spectrum.add_assoc' (a b c : Spectrum) : a + b + c = a + (b + c) := by
  show Spectrum.mk (a.c0 + b.c0 + c.c0) (a.c1 + b.c1 + c.c1) (a.c2 + b.c2 + c.c2)
     = Spectrum.mk (a.c0 + (b.c0 + c.c0)) (a.c1 + (b.c1 + c.c1)) (a.c2 + (b.c2 + c.c2))
  rw [add_assoc, add_assoc, add_assoc]

theorem Spectrum.zero_add' (a : Spectrum) : 0 + a = a := by
  cases a with
  | mk x y z =>
    show Spectrum.mk (0 + x) (0 + y) (0 + z) = Spectrum.mk x y z
    rw [zero_add, zero_add, zero_add]

/-- The direct-lighting loop computes the specification sum: starting
accumulator `l`, one sampler pull per light, final sampler position advanced
by exactly the number of lights, arena untouched. -/
theorem directLoop_eq (sampler : Sampler) (isect : SurfaceInteractionData)
    (n wo : Vec3) (lights : List Light) (l : Spectrum) (st : IState)
    (bsdf : BsdfSpec) (h : isect.get_bsdf st.arenaBsdf = some bsdf) :
    directLoop sampler isect n wo lights l st =
      .ok (l + lightTermsSum sampler bsdf isect.common n wo lights st.samplerIdx,
        { st with samplerIdx := st.samplerIdx + lights.length }) := by
  induction lights generalizing l st with
  | nil =>
    simp only [directLoop, lightTermsSum, List.length_nil, Nat.add_zero]
    rw [Spectrum.add_zero']
  | cons light rest ih =>
    simp only [directLoop, lightTermsSum]
    by_cases hskip : ((light.sample_li isect.common (sampler st.samplerIdx)).li.is_black = true
        ∨ (light.sample_li isect.common (sampler st.samplerIdx)).pdf = 0)
    · rw [if_pos hskip, ih l { st with samplerIdx := st.samplerIdx + 1 } h]
      simp only [lightTerm, if_pos hskip]
      rw [Spectrum.zero_add']
      simp only [List.length_cons, Except.ok.injEq, Prod.mk.injEq, IState.mk.injEq]
      exact ⟨trivial, by omega, trivial⟩
    · rw [if_neg hskip, h]
      simp only
      by_cases hadd : ((bsdf.f wo
            (light.sample_li isect.common (sampler st.samplerIdx)).wi BsdfAll).is_black = false
          ∧ (light.sample_li isect.common (sampler st.samplerIdx)).unoccluded = true)
      · rw [if_pos hadd, ih _ { st with samplerIdx := st.samplerIdx + 1 } h]
        simp only [lightTerm, if_neg hskip, if_pos hadd]
        rw [Spectrum.add_assoc']
        simp only [List.length_cons, Except.ok.injEq, Prod.mk.injEq, IState.mk.injEq]
        exact ⟨trivial, by omega, trivial⟩
      · rw [if_neg hadd, ih l { st with samplerIdx := st.samplerIdx + 1 } h]
        simp only [lightTerm, if_neg hskip, if_neg hadd]
        rw [Spectrum.zero_add']
        simp only [List.length_cons, Except.ok.injEq, Prod.mk.injEq, IState.mk.injEq]
        exact ⟨trivial, by omega, trivial⟩

/-! ## Unfolding and safety lemmas for the integrator -/

theorem li_miss (integ : WhittedIntegrator) (scene : Scene) (sampler : Sampler)
    (fuel : Nat) (ray : Ray) (st : IState) (depth : Nat)
    (h : scene.intersect ray = none) :
    li integ scene sampler (fuel + 1) ray st depth =
      .ok (scene.lights.foldl (fun l light => l + light.le ray) 0, st) := by
  simp [li, h]

theorem li_pass (integ : WhittedIntegrator) (scene : Scene) (sampler : Sampler)
    (fuel : Nat) (ray : Ray) (st : IState) (depth : Nat)
    (isect0 : SurfaceInteractionData) (h : scene.intersect ray = some isect0)
    (hc : isect0.csf = none) :
    li integ scene sampler (fuel + 1) ray st depth =
      li integ scene sampler fuel (isect0.spawn_ray ray.d) st depth := by
  simp [li, h, computeScatteringFunctions, hc, SurfaceInteractionData.spawn_ray]

theorem li_hit (integ : WhittedIntegrator) (scene : Scene) (sampler : Sampler)
    (fuel : Nat) (ray : Ray) (st : IState) (depth : Nat)
    (isect0 : SurfaceInteractionData) (comp : Compiled)
    (h : scene.intersect ray = some isect0) (hc : isect0.csf = some comp) :
    li integ scene sampler (fuel + 1) ray st depth =
      Except.bind (directLoop sampler
          { isect0 with shading := comp.shading, bsdf := some st.arenaBsdf.length }
          isect0.shading.n isect0.common.wo scene.lights
          (isect0.le isect0.common.wo)
          { st with arenaBsdf := st.arenaBsdf ++ [comp.bsdf] })
        (fun ld2 =>
          if depth + 1 < integ.max_depth then
            Except.bind (specular_reflect integ scene sampler fuel ray
                { isect0 with shading := comp.shading, bsdf := some st.arenaBsdf.length }
                ld2.2 depth)
              (fun lr3 =>
                Except.map (fun lt4 => (ld2.1 + lr3.1 + lt4.1, lt4.2))
                  (specular_transmit integ scene sampler fuel ray
                    { isect0 with shading := comp.shading, bsdf := some st.arenaBsdf.length }
                    lr3.2 depth))
          else .ok ld2) := by
  simp [li, h, computeScatteringFunctions, hc, specular_reflect, specular_transmit]

theorem getElem_append_len {α : Type} (l : List α) (a : α) :
    (l ++ [a])[l.length]? = some a := by
  induction l with
  | nil => rfl
  | cons x xs ih =>
    simp only [List.cons_append, List.length_cons, List.getElem?_cons_succ]
    exact ih

/-- The freshly compiled interaction's handle always resolves in the extended
arena, to the BSDF that was just appended. -/
theorem get_bsdf_fresh (isect0 : SurfaceInteractionData) (comp : Compiled)
    (arena : List BsdfSpec) :
    ({ isect0 with shading := comp.shading, bsdf := some arena.length }
        : SurfaceInteractionData).get_bsdf (arena ++ [comp.bsdf]) = some comp.bsdf := by
  simp [SurfaceInteractionData.get_bsdf, getElem_append_len]

theorem SafeRes_mono (b ext : List BsdfSpec)
    (r : Except RunError (Spectrum × IState)) (h : SafeRes (b ++ ext) r) :
    SafeRes b r := by
  cases r with
  | error e => exact h
  | ok p =>
    obtain ⟨tl, htl⟩ := h
    exact ⟨ext ++ tl, by rw [htl, List.append_assoc]⟩

/-- Weighting the radiance of a safe result preserves safety (the state part
is untouched). -/
theorem SafeRes_weight (base : List BsdfSpec)
    (res : Except RunError (Spectrum × IState))
    (g : Spectrum × IState → Spectrum) (h : SafeRes base res) :
    SafeRes base (Except.map (fun p => (g p, p.2)) res) := by
  cases res with
  | error e => exact h
  | ok p => exact h

/-- Chaining the two specular results after direct lighting preserves
safety. -/
theorem SafeRes_chain2 (base : List BsdfSpec) (ld : Spectrum)
    (res1 : Except RunError (Spectrum × IState))
    (res2 : Spectrum × IState → Except RunError (Spectrum × IState))
    (h1 : SafeRes base res1)
    (h2 : ∀ q, SafeRes q.2.arenaBsdf (res2 q)) :
    SafeRes base (Except.bind res1
      (fun lr3 =>
        Except.map (fun lt4 => (ld + lr3.1 + lt4.1, lt4.2)) (res2 lr3))) := by
  cases res1 with
  | error e => exact h1
  | ok p =>
    obtain ⟨tl3, htl3⟩ := h1
    show SafeRes base (Except.map _ (res2 p))
    cases hr2 : res2 p with
    | error e =>
      have h := h2 p
      rw [hr2] at h
      exact h
    | ok q =>
      have h := h2 p
      rw [hr2] at h
      obtain ⟨tl4, htl4⟩ := h
      exact ⟨tl3 ++ tl4, by
        show q.2.arenaBsdf = _
        rw [htl4, htl3, List.append_assoc]⟩

/-- Safety of the specular bodies, given safety of the recursive radiance
call: they never panic themselves, and they only extend the BSDF arena. -/
theorem specularBodyR_safety (sampler : Sampler)
    (liNext : Ray → IState → Except RunError (Spectrum × IState))
    (ray : Ray) (isect : SurfaceInteractionData) (st : IState)
    (hsafe : ∀ r s, SafeRes s.arenaBsdf (liNext r s)) :
    SafeRes st.arenaBsdf (specularBodyR sampler liNext ray isect st) := by
  unfold specularBodyR
  cases hg : isect.get_bsdf st.arenaBsdf with
  | none => exact ⟨[], (List.append_nil _).symm⟩
  | some bsdf =>
    simp only
    split
    · exact SafeRes_weight _ _ _ (hsafe _ _)
    · exact ⟨[], (List.append_nil _).symm⟩

/-- Transmission analogue of `specularBodyR_safety`. -/
theorem specularBodyT_safety (sampler : Sampler)
    (liNext : Ray → IState → Except RunError (Spectrum × IState))
    (ray : Ray) (isect : SurfaceInteractionData) (st : IState)
    (hsafe : ∀ r s, SafeRes s.arenaBsdf (liNext r s)) :
    SafeRes st.arenaBsdf (specularBodyT sampler liNext ray isect st) := by
  unfold specularBodyT
  cases hg : isect.get_bsdf st.arenaBsdf with
  | none => exact ⟨[], (List.append_nil _).symm⟩
  | some bsdf =>
    simp only
    split
    · exact SafeRes_weight _ _ _ (hsafe _ _)
    · exact ⟨[], (List.append_nil _).symm⟩

/-- The central safety property of the embedded `li`: the
`panic!("no isect.bsdf found")` branch is unreachable (the run never ends in
the panic error), and the BSDF arena only ever grows. -/
theorem li_safety : ∀ (fuel : Nat) (integ : WhittedIntegrator) (scene : Scene)
    (sampler : Sampler) (ray : Ray) (st : IState) (depth : Nat),
    SafeRes st.arenaBsdf (li integ scene sampler fuel ray st depth) := by
  intro fuel
  induction fuel with
  | zero => intro _ _ _ _ _ _; simp [li, SafeRes]
  | succ fuel ih =>
    intro integ scene sampler ray st depth
    cases hI : scene.intersect ray with
    | none =>
      rw [li_miss integ scene sampler fuel ray st depth hI]
      exact ⟨[], (List.append_nil _).symm⟩
    | some isect0 =>
      cases hc : isect0.csf with
      | none =>
        rw [li_pass integ scene sampler fuel ray st depth isect0 hI hc]
        exact ih integ scene sampler (isect0.spawn_ray ray.d) st depth
      | some comp =>
        rw [li_hit integ scene sampler fuel ray st depth isect0 comp hI hc]
        rw [directLoop_eq sampler
          { isect0 with shading := comp.shading, bsdf := some st.arenaBsdf.length }
          isect0.shading.n isect0.common.wo scene.lights
          (isect0.le isect0.common.wo)
          { st with arenaBsdf := st.arenaBsdf ++ [comp.bsdf] }
          comp.bsdf (get_bsdf_fresh isect0 comp st.arenaBsdf)]
        have hsafe : ∀ r s, SafeRes s.arenaBsdf
            (li integ scene sampler fuel r s (depth + 1)) :=
          fun r s => ih integ scene sampler r s (depth + 1)
        show SafeRes st.arenaBsdf (if depth + 1 < integ.max_depth then _ else _)
        split
        · exact SafeRes_chain2 _ _ _ _
            (SafeRes_mono _ [comp.bsdf] _
              (specularBodyR_safety sampler _ ray _ _ hsafe))
            (fun q => specularBodyT_safety sampler _ ray _ q.2 hsafe)
        · exact ⟨[comp.bsdf], rfl⟩

/-- Full characterization of the uber compiler: exactly one composed BSDF is
appended (relative index `1` when `t` is non-black and `e` otherwise, lobe
handles consecutive), the interaction receives the new arena index, and the
lobe arena grows by exactly the conditionally appended lobes. -/
theorem uber_csf_char (m : UberMaterial) (ext : MaterialExternals)
    (si : SurfaceInteractionData) (ab : List Bsdf) (abx : List Bxdf)
    (mode : TransportMode) (aml : Bool) (scale_opt : Option Spectrum) :
    m.compute_scattering_functions ext si ab abx mode aml scale_opt
      = ({ uberSi m ext si with bsdf := some ab.length },
         ab ++ [{ ns := (uberSi m ext si).shading.n,
                  eta := if (uberT m ext si).is_black = false then 1
                    else uberE m ext si,
                  bxdfs := List.range' abx.length
                    (uberNewLobes m ext si mode scale_opt).length }],
         abx ++ uberNewLobes m ext si mode scale_opt) := by
  have hsc : (if (scale_opt.isSome) = true then some (scale_opt.getD 0) else none)
      = scale_opt := by cases scale_opt <;> rfl
  by_cases h1 : (uberT m ext si).is_black = false <;>
    by_cases h2 : (uberKd m ext si).is_black = false <;>
      by_cases h3 : (uberKs m ext si).is_black = false <;>
        by_cases h4 : (uberKr m ext si).is_black = false <;>
          by_cases h5 : (uberKt m ext si).is_black = false <;>
            simp only [UberMaterial.compute_scattering_functions, hsc,
              uberNewLobes, uberSi, uberE, uberOp, uberT, uberKd, uberKs,
              uberKr, uberKt, uberAlphaU, uberAlphaV, uberURough, uberVRough,
              h1, h2, h3, h4, h5, if_true, if_false, List.append_nil,
              List.nil_append, List.append_assoc, List.length_append,
              List.length_cons, List.length_nil, List.range'] at * <;>
            simp [h1, h2, h3, h4, h5, List.range', Nat.add_assoc]

/-- Full characterization of the mirror compiler: exactly one composed BSDF is
appended, with relative index `1` and a single unconditional
specular-reflection lobe built from the clamped reflectance, and the
interaction receives the new arena index. -/
theorem mirror_csf_char (m : MirrorMaterial) (ext : MaterialExternals)
    (si : SurfaceInteractionData) (arena : List MirrorBsdf)
    (mode : TransportMode) (aml : Bool) (scale_opt : Option Spectrum) :
    m.compute_scattering_functions ext si arena mode aml scale_opt
      = ({ postBump m.bump_map ext si with bsdf := some arena.length },
         arena ++ [{ ns := (postBump m.bump_map ext si).shading.n, eta := 1,
                     bxdfs := [Bxdf.SpecRefl
                       ((m.kr (postBump m.bump_map ext si)).clamp 0)
                       Fresnel.NoOp scale_opt] }]) := by
  cases scale_opt <;>
    simp [MirrorMaterial.compute_scattering_functions]

theorem except_bind_ok {α β : Type} (a : α) (f : α → Except RunError β) :
    Except.bind (Except.ok a) f = f a := rfl

theorem reflect_ray_differential_o (ray : Ray) (isect : SurfaceInteractionData)
    (wi : Vec3) : (reflect_ray_differential ray isect wi).o = isect.common.p := by
  unfold reflect_ray_differential
  cases ray.differential <;> rfl

theorem reflect_ray_differential_d (ray : Ray) (isect : SurfaceInteractionData)
    (wi : Vec3) : (reflect_ray_differential ray isect wi).d = wi := by
  unfold reflect_ray_differential
  cases ray.differential <;> rfl

theorem transmit_ray_differential_o (ray : Ray) (isect : SurfaceInteractionData)
    (bsdf_eta : Float) (wi : Vec3) :
    (transmit_ray_differential ray isect bsdf_eta wi).o = isect.common.p := by
  unfold transmit_ray_differential
  cases ray.differential <;> rfl

theorem transmit_ray_differential_d (ray : Ray) (isect : SurfaceInteractionData)
    (bsdf_eta : Float) (wi : Vec3) :
    (transmit_ray_differential ray isect bsdf_eta wi).d = wi := by
  unfold transmit_ray_differential
  cases ray.differential <;> rfl

/-! ## Claim theorems -/

/-- C1.  In `WhittedIntegrator::li`, for every light in the scene, exactly one
sample is drawn per shading point (the sampler advances by exactly the number
of lights, light `i` consuming stream entry `samplerIdx + i`); the light's
contribution is skipped when the sampled radiance is black or `pdf = 0`, and
otherwise the term `f(wo, wi) * Li * |cos θ(wi, n)| / pdf` is added to the
returned radiance if and only if `f` is non-black and the visibility test
reports the sample unoccluded — as captured by `lightTerm`/`lightTermsSum`. -/
theorem claimC1 : ∀ (sampler : Sampler) (isect : SurfaceInteractionData)
    (n wo : Vec3) (lights : List Light) (l : Spectrum) (st : IState)
    (bsdf : BsdfSpec), isect.get_bsdf st.arenaBsdf = some bsdf →
    directLoop sampler isect n wo lights l st =
      .ok (l + lightTermsSum sampler bsdf isect.common n wo lights st.samplerIdx,
        { st with samplerIdx := st.samplerIdx + lights.length }) :=
  fun sampler isect n wo lights l st bsdf h =>
    directLoop_eq sampler isect n wo lights l st bsdf h

/-- C2.  `specular_reflect` and `specular_transmit`: when the sampled pdf is
positive, the BSDF value non-black and `|cos θ(wi, ns)|` non-zero, the result
is `f * Li(depth + 1, ray spawned from the hit point along wi) * |cos θ| / pdf`
(one sampler pull consumed); in every other case the result is the zero
spectrum and no error is signalled. -/
theorem claimC2 : ∀ (integ : WhittedIntegrator) (scene : Scene)
    (sampler : Sampler) (fuel : Nat) (ray : Ray)
    (isect : SurfaceInteractionData) (st : IState) (depth : Nat),
    (∀ bsdf r, isect.get_bsdf st.arenaBsdf = some bsdf →
      r = bsdf.sample_f isect.common.wo (sampler st.samplerIdx)
        (BsdfReflection ||| BsdfSpecular) →
      ((0 < r.pdf ∧ r.f.is_black = false ∧
          vec3_abs_dot_nrmf r.wi isect.shading.n ≠ 0) →
        ∃ rd : Ray, rd.o = isect.common.p ∧ rd.d = r.wi ∧
          specular_reflect integ scene sampler fuel ray isect st depth =
            Except.map (fun p => (r.f * p.1 *
                Spectrum.new (vec3_abs_dot_nrmf r.wi isect.shading.n / r.pdf), p.2))
              (li integ scene sampler fuel rd
                { st with samplerIdx := st.samplerIdx + 1 } (depth + 1))) ∧
      (¬(0 < r.pdf ∧ r.f.is_black = false ∧
          vec3_abs_dot_nrmf r.wi isect.shading.n ≠ 0) →
        specular_reflect integ scene sampler fuel ray isect st depth =
          .ok (Spectrum.new 0, { st with samplerIdx := st.samplerIdx + 1 }))) ∧
    (∀ bsdf r, isect.get_bsdf st.arenaBsdf = some bsdf →
      r = bsdf.sample_f isect.common.wo (sampler st.samplerIdx)
        (BsdfTransmission ||| BsdfSpecular) →
      ((0 < r.pdf ∧ r.f.is_black = false ∧
          vec3_abs_dot_nrmf r.wi isect.shading.n ≠ 0) →
        ∃ rd : Ray, rd.o = isect.common.p ∧ rd.d = r.wi ∧
          specular_transmit integ scene sampler fuel ray isect st depth =
            Except.map (fun p => (r.f * p.1 *
                Spectrum.new (vec3_abs_dot_nrmf r.wi isect.shading.n / r.pdf), p.2))
              (li integ scene sampler fuel rd
                { st with samplerIdx := st.samplerIdx + 1 } (depth + 1))) ∧
      (¬(0 < r.pdf ∧ r.f.is_black = false ∧
          vec3_abs_dot_nrmf r.wi isect.shading.n ≠ 0) →
        specular_transmit integ scene sampler fuel ray isect st depth =
          .ok (Spectrum.new 0, { st with samplerIdx := st.samplerIdx + 1 }))) ∧
    (isect.get_bsdf st.arenaBsdf = none →
      specular_reflect integ scene sampler fuel ray isect st depth =
          .ok (Spectrum.new 0, st) ∧
        specular_transmit integ scene sampler fuel ray isect st depth =
          .ok (Spectrum.new 0, st)) := by
  intro integ scene sampler fuel ray isect st depth
  refine ⟨?_, ?_, ?_⟩
  · intro bsdf r hg hr
    subst hr
    constructor
    · intro hcond
      refine ⟨reflect_ray_differential ray isect
        (bsdf.sample_f isect.common.wo (sampler st.samplerIdx)
          (BsdfReflection ||| BsdfSpecular)).wi,
        reflect_ray_differential_o ray isect _,
        reflect_ray_differential_d ray isect _, ?_⟩
      unfold specular_reflect specularBodyR
      rw [hg]
      simp only
      rw [if_pos hcond]
    · intro hcond
      unfold specular_reflect specularBodyR
      rw [hg]
      simp only
      rw [if_neg hcond]
  · intro bsdf r hg hr
    subst hr
    constructor
    · intro hcond
      refine ⟨transmit_ray_differential ray isect bsdf.eta
        (bsdf.sample_f isect.common.wo (sampler st.samplerIdx)
          (BsdfTransmission ||| BsdfSpecular)).wi,
        transmit_ray_differential_o ray isect _ _,
        transmit_ray_differential_d ray isect _ _, ?_⟩
      unfold specular_transmit specularBodyT
      rw [hg]
      simp only
      rw [if_pos hcond]
    · intro hcond
      unfold specular_transmit specularBodyT
      rw [hg]
      simp only
      rw [if_neg hcond]
  · intro hnone
    constructor
    · unfold specular_reflect specularBodyR
      rw [hnone]
    · unfold specular_transmit specularBodyT
      rw [hnone]

/-- C3.  `li` takes the specular branches exactly when `depth + 1 < max_depth`:
at or above the cutoff the returned radiance is precisely the direct-lighting
result (emitted light plus the per-light sum) with zero contribution from the
specular branches, and below the cutoff the two specular contributions (each
recursing at `depth + 1`) are added. -/
theorem claimC3 : ∀ (integ : WhittedIntegrator) (scene : Scene)
    (sampler : Sampler) (fuel : Nat) (ray : Ray) (st : IState) (depth : Nat)
    (isect0 : SurfaceInteractionData) (comp : Compiled),
    scene.intersect ray = some isect0 → isect0.csf = some comp →
    ((integ.max_depth ≤ depth + 1 →
      li integ scene sampler (fuel + 1) ray st depth =
        directLoop sampler
          { isect0 with shading := comp.shading, bsdf := some st.arenaBsdf.length }
          isect0.shading.n isect0.common.wo scene.lights
          (isect0.le isect0.common.wo)
          { st with arenaBsdf := st.arenaBsdf ++ [comp.bsdf] }) ∧
    (depth + 1 < integ.max_depth →
      li integ scene sampler (fuel + 1) ray st depth =
        Except.bind (directLoop sampler
            { isect0 with shading := comp.shading, bsdf := some st.arenaBsdf.length }
            isect0.shading.n isect0.common.wo scene.lights
            (isect0.le isect0.common.wo)
            { st with arenaBsdf := st.arenaBsdf ++ [comp.bsdf] })
          (fun ld2 =>
            Except.bind (specular_reflect integ scene sampler fuel ray
                { isect0 with shading := comp.shading, bsdf := some st.arenaBsdf.length }
                ld2.2 depth)
              (fun lr3 =>
                Except.map (fun lt4 => (ld2.1 + lr3.1 + lt4.1, lt4.2))
                  (specular_transmit integ scene sampler fuel ray
                    { isect0 with shading := comp.shading, bsdf := some st.arenaBsdf.length }
                    lr3.2 depth))))) := by
  intro integ scene sampler fuel ray st depth isect0 comp h1 h2
  constructor
  · intro hcut
    rw [li_hit integ scene sampler fuel ray st depth isect0 comp h1 h2]
    rw [directLoop_eq sampler
      { isect0 with shading := comp.shading, bsdf := some st.arenaBsdf.length }
      isect0.shading.n isect0.common.wo scene.lights
      (isect0.le isect0.common.wo)
      { st with arenaBsdf := st.arenaBsdf ++ [comp.bsdf] }
      comp.bsdf (get_bsdf_fresh isect0 comp st.arenaBsdf)]
    rw [except_bind_ok]
    simp only
    rw [if_neg (Nat.not_lt.mpr hcut)]
  · intro hact
    rw [li_hit integ scene sampler fuel ray st depth isect0 comp h1 h2]
    rw [directLoop_eq sampler
      { isect0 with shading := comp.shading, bsdf := some st.arenaBsdf.length }
      isect0.shading.n isect0.common.wo scene.lights
      (isect0.le isect0.common.wo)
      { st with arenaBsdf := st.arenaBsdf ++ [comp.bsdf] }
      comp.bsdf (get_bsdf_fresh isect0 comp st.arenaBsdf)]
    rw [except_bind_ok, except_bind_ok]
    simp only
    rw [if_pos hact]

/-- C4.  When material compilation yields no BSDF (pass-through), `li` returns
the radiance of the recursive call along the unmodified parent ray direction
spawned from the hit point, at the unchanged depth. -/
theorem claimC4 : ∀ (integ : WhittedIntegrator) (scene : Scene)
    (sampler : Sampler) (fuel : Nat) (ray : Ray) (st : IState) (depth : Nat)
    (isect0 : SurfaceInteractionData),
    scene.intersect ray = some isect0 → isect0.csf = none →
    li integ scene sampler (fuel + 1) ray st depth =
      li integ scene sampler fuel (isect0.spawn_ray ray.d) st depth :=
  fun integ scene sampler fuel ray st depth isect0 h1 h2 =>
    li_pass integ scene sampler fuel ray st depth isect0 h1 h2

/-- C5.  On a miss, `li` returns exactly the sum over the scene's lights of
`light.le(ray)`, for every `max_depth` and every depth argument; with a single
light the result is exactly that light's `le(ray)`. -/
theorem claimC5 : ∀ (integ : WhittedIntegrator) (scene : Scene)
    (sampler : Sampler) (fuel : Nat) (ray : Ray) (st : IState) (depth : Nat),
    scene.intersect ray = none →
    (li integ scene sampler (fuel + 1) ray st depth =
      .ok (scene.lights.foldl (fun l light => l + light.le ray) 0, st)) ∧
    (∀ light, scene.lights = [light] →
      li integ scene sampler (fuel + 1) ray st depth =
        .ok (light.le ray, st)) := by
  intro integ scene sampler fuel ray st depth h
  constructor
  · exact li_miss integ scene sampler fuel ray st depth h
  · intro light hl
    rw [li_miss integ scene sampler fuel ray st depth h, hl]
    simp only [List.foldl]
    rw [Spectrum.zero_add']

/-- C9.  The embedded `li` never ends in the panic (the abort branch guarded
by a missing BSDF at the direct-lighting stage is unreachable, because the
freshly compiled BSDF handle always resolves); conversely the direct-lighting
loop does abort exactly there: a live light sample (neither black nor zero
pdf) meeting an unresolvable BSDF handle produces the panic error. -/
theorem claimC9 :
    (∀ (integ : WhittedIntegrator) (scene : Scene) (sampler : Sampler)
      (fuel : Nat) (ray : Ray) (st : IState) (depth : Nat),
      li integ scene sampler fuel ray st depth ≠ .error .panicked) ∧
    (∀ (sampler : Sampler) (isect : SurfaceInteractionData) (n wo : Vec3)
      (light : Light) (rest : List Light) (l : Spectrum) (st : IState),
      isect.get_bsdf st.arenaBsdf = none →
      ¬((light.sample_li isect.common (sampler st.samplerIdx)).li.is_black = true ∨
        (light.sample_li isect.common (sampler st.samplerIdx)).pdf = 0) →
      directLoop sampler isect n wo (light :: rest) l st = .error .panicked) := by
  constructor
  · intro integ scene sampler fuel ray st depth hcontra
    have h := li_safety fuel integ scene sampler ray st depth
    rw [hcontra] at h
    exact h rfl
  · intro sampler isect n wo light rest l st hnone hskip
    simp only [directLoop]
    rw [if_neg hskip, hnone]

theorem spectrum_mul_def (a b : Spectrum) :
    a * b = ⟨a.c0 * b.c0, a.c1 * b.c1, a.c2 * b.c2⟩ := rfl

theorem spectrum_clamp_nonnegb (s : Spectrum) : (s.clamp 0).nonnegb = true := by
  simp only [Spectrum.clamp, Spectrum.nonnegb, Bool.and_eq_true, decide_eq_true_eq]
  exact ⟨⟨le_max_right _ _, le_max_right _ _⟩, le_max_right _ _⟩

theorem spectrum_nonnegb_mul (a b : Spectrum) (ha : a.nonnegb = true)
    (hb : b.nonnegb = true) : (a * b).nonnegb = true := by
  simp only [Spectrum.nonnegb, Bool.and_eq_true, decide_eq_true_eq] at ha hb
  simp only [spectrum_mul_def, Spectrum.nonnegb, Bool.and_eq_true, decide_eq_true_eq]
  exact ⟨⟨mul_nonneg ha.1.1 hb.1.1, mul_nonneg ha.1.2 hb.1.2⟩,
    mul_nonneg ha.2 hb.2⟩

theorem spectrum_clamp_new_one : (Spectrum.new 1).clamp 0 = Spectrum.new 1 := by
  show Spectrum.mk (max 1 0) (max 1 0) (max 1 0) = Spectrum.new 1
  norm_num [Spectrum.new]

theorem spectrum_clamp_new_zero : (Spectrum.new 0).clamp 0 = Spectrum.new 0 := by
  show Spectrum.mk (max 0 0) (max 0 0) (max 0 0) = Spectrum.new 0
  norm_num [Spectrum.new]

theorem spectrum_one_sub_one :
    Spectrum.new 1 - Spectrum.new 1 = Spectrum.new 0 := by
  show Spectrum.mk (1 - 1) (1 - 1) (1 - 1) = Spectrum.new 0
  norm_num [Spectrum.new]

theorem spectrum_one_sub_zero :
    Spectrum.new 1 - Spectrum.new 0 = Spectrum.new 1 := by
  show Spectrum.mk (1 - 0) (1 - 0) (1 - 0) = Spectrum.new 1
  norm_num [Spectrum.new]

theorem spectrum_mul_new_zero (s : Spectrum) :
    s * Spectrum.new 0 = Spectrum.new 0 := by
  rw [spectrum_mul_def]
  show Spectrum.mk (s.c0 * 0) (s.c1 * 0) (s.c2 * 0) = Spectrum.new 0
  norm_num [Spectrum.new]

theorem spectrum_new_zero_mul (s : Spectrum) :
    Spectrum.new 0 * s = Spectrum.new 0 := by
  rw [spectrum_mul_def]
  show Spectrum.mk (0 * s.c0) (0 * s.c1) (0 * s.c2) = Spectrum.new 0
  norm_num [Spectrum.new]

theorem spectrum_is_black_new_zero : (Spectrum.new 0).is_black = true := rfl

theorem spectrum_is_black_new_one : (Spectrum.new 1).is_black = false := rfl

/-- The driving spectra the uber compiler stores are all channelwise
non-negative, whatever the textures return: they are clamped, or a product of
clamped values. -/
theorem uberSpectra_nonneg (m : UberMaterial) (ext : MaterialExternals)
    (si : SurfaceInteractionData) :
    (uberT m ext si).nonnegb = true ∧ (uberKd m ext si).nonnegb = true ∧
      (uberKs m ext si).nonnegb = true ∧ (uberKr m ext si).nonnegb = true ∧
      (uberKt m ext si).nonnegb = true := by
  have hop : (uberOp m ext si).nonnegb = true := spectrum_clamp_nonnegb _
  refine ⟨spectrum_clamp_nonnegb _, ?_, ?_, ?_, ?_⟩ <;>
    exact spectrum_nonnegb_mul _ _ hop (spectrum_clamp_nonnegb _)

/-- C6.  The uber compiler's composed BSDF has relative refraction index `1`
exactly when the opacity-derived transmittance `t` is non-black, and the
evaluated `eta` otherwise; with opacity `1` and `kt = kr = 0` no
specular-transmission lobe is appended and the index is the evaluated `eta`;
with opacity `0` the `kd/ks/kr/kt` lobes all collapse to black and exactly the
index-matched opacity-transmission lobe with `t = 1` is appended, with index
`1`. -/
theorem claimC6 : ∀ (m : UberMaterial) (ext : MaterialExternals)
    (si : SurfaceInteractionData) (ab : List Bsdf) (abx : List Bxdf)
    (mode : TransportMode) (aml : Bool) (scale_opt : Option Spectrum),
    (∃ b : Bsdf,
      (m.compute_scattering_functions ext si ab abx mode aml scale_opt).2.1 =
        ab ++ [b] ∧
      b.eta = (if (uberT m ext si).is_black = false then 1
        else uberE m ext si)) ∧
    (m.opacity (uberSi m ext si) = Spectrum.new 1 →
      m.kt (uberSi m ext si) = Spectrum.new 0 →
      m.kr (uberSi m ext si) = Spectrum.new 0 →
      (((m.compute_scattering_functions ext si ab abx mode aml
            scale_opt).2.2.drop abx.length).all
          (fun x => !x.isSpecTrans)) = true ∧
      ∃ b : Bsdf,
        (m.compute_scattering_functions ext si ab abx mode aml scale_opt).2.1 =
          ab ++ [b] ∧ b.eta = uberE m ext si) ∧
    (m.opacity (uberSi m ext si) = Spectrum.new 0 →
      (m.compute_scattering_functions ext si ab abx mode aml
          scale_opt).2.2.drop abx.length =
        [Bxdf.SpecTrans (Spectrum.new 1) 1 1 mode scale_opt] ∧
      ∃ b : Bsdf,
        (m.compute_scattering_functions ext si ab abx mode aml scale_opt).2.1 =
          ab ++ [b] ∧ b.eta = 1) := by
  intro m ext si ab abx mode aml scale_opt
  have hchar := uber_csf_char m ext si ab abx mode aml scale_opt
  refine ⟨⟨_, by rw [hchar], rfl⟩, ?_, ?_⟩
  · intro h1 h2 h3
    have hop : uberOp m ext si = Spectrum.new 1 := by
      rw [uberOp, h1]; exact spectrum_clamp_new_one
    have ht : uberT m ext si = Spectrum.new 0 := by
      rw [uberT, hop, spectrum_one_sub_one]; exact spectrum_clamp_new_zero
    have htb : (uberT m ext si).is_black = true := by
      rw [ht]; exact spectrum_is_black_new_zero
    have hkt : uberKt m ext si = Spectrum.new 0 := by
      rw [uberKt, h2, spectrum_clamp_new_zero]; exact spectrum_mul_new_zero _
    have hktb : (uberKt m ext si).is_black = true := by
      rw [hkt]; exact spectrum_is_black_new_zero
    have hkr : uberKr m ext si = Spectrum.new 0 := by
      rw [uberKr, h3, spectrum_clamp_new_zero]; exact spectrum_mul_new_zero _
    have hkrb : (uberKr m ext si).is_black = true := by
      rw [hkr]; exact spectrum_is_black_new_zero
    constructor
    · rw [hchar]
      simp only [List.drop_left]
      by_cases hkd : (uberKd m ext si).is_black = false <;>
        by_cases hks : (uberKs m ext si).is_black = false <;>
          simp [uberNewLobes, htb, hktb, hkrb, hkd, hks, Bxdf.isSpecTrans]
    · refine ⟨_, by rw [hchar], ?_⟩
      simp [htb]
  · intro h1
    have hop : uberOp m ext si = Spectrum.new 0 := by
      rw [uberOp, h1]; exact spectrum_clamp_new_zero
    have ht : uberT m ext si = Spectrum.new 1 := by
      rw [uberT, hop, spectrum_one_sub_zero]; exact spectrum_clamp_new_one
    have htb : (uberT m ext si).is_black = false := by
      rw [ht]; exact spectrum_is_black_new_one
    have hkdb : (uberKd m ext si).is_black = true := by
      rw [uberKd, hop, spectrum_new_zero_mul]; exact spectrum_is_black_new_zero
    have hksb : (uberKs m ext si).is_black = true := by
      rw [uberKs, hop, spectrum_new_zero_mul]; exact spectrum_is_black_new_zero
    have hkrb : (uberKr m ext si).is_black = true := by
      rw [uberKr, hop, spectrum_new_zero_mul]; exact spectrum_is_black_new_zero
    have hktb : (uberKt m ext si).is_black = true := by
      rw [uberKt, hop, spectrum_new_zero_mul]; exact spectrum_is_black_new_zero
    constructor
    · rw [hchar]
      simp only [List.drop_left]
      simp [uberNewLobes, ht, htb, hkdb, hksb, hkrb, hktb,
        spectrum_is_black_new_one]
    · refine ⟨_, by rw [hchar], ?_⟩
      simp [htb]

/-- C7 counterexample.  The claim "every compiler appends a lobe only when its
driving spectrum is non-black" fails on the mirror compiler: with a black
reflectance texture the clamped driving spectrum is black, yet the composed
BSDF still receives its one specular-reflection lobe. -/
theorem claimC7_counterexample :
    ((wMirrorBlack.kr (postBump wMirrorBlack.bump_map wExt wIsectPass)).clamp
        0).is_black = true ∧
    (wMirrorBlack.compute_scattering_functions wExt wIsectPass []
        TransportMode.Radiance false none).2 =
      [{ ns := wIsectPass.shading.n, eta := 1,
         bxdfs := [Bxdf.SpecRefl (Spectrum.new 0) Fresnel.NoOp none] }] :=
  ⟨rfl, rfl⟩

/-- C7 amended.  The uber compiler appends each of its five candidate lobes
exactly when that lobe's driving spectrum is non-black (lobe arena unchanged
by a black-driven clause); the mirror compiler appends its single
specular-reflection lobe unconditionally, even when the clamped reflectance is
black. -/
theorem claimC7_amended :
    (∀ (m : UberMaterial) (ext : MaterialExternals)
      (si : SurfaceInteractionData) (ab : List Bsdf) (abx : List Bxdf)
      (mode : TransportMode) (aml : Bool) (scale_opt : Option Spectrum),
      (m.compute_scattering_functions ext si ab abx mode aml scale_opt).2.2 =
        abx ++ uberNewLobes m ext si mode scale_opt) ∧
    (∀ (m : MirrorMaterial) (ext : MaterialExternals)
      (si : SurfaceInteractionData) (arena : List MirrorBsdf)
      (mode : TransportMode) (aml : Bool) (scale_opt : Option Spectrum),
      ∃ b : MirrorBsdf,
        (m.compute_scattering_functions ext si arena mode aml scale_opt).2 =
          arena ++ [b] ∧
        b.bxdfs = [Bxdf.SpecRefl ((m.kr (postBump m.bump_map ext si)).clamp 0)
          Fresnel.NoOp scale_opt]) := by
  constructor
  · intro m ext si ab abx mode aml scale_opt
    rw [uber_csf_char]
  · intro m ext si arena mode aml scale_opt
    exact ⟨_, by rw [mirror_csf_char], rfl⟩

/-- C8.  Every lobe stored by the mirror and uber compilers carries a driving
spectrum that was clamped to the non-negative range before storage (negative
texture values are silently clamped; both compilers are total functions, so no
evaluation is ever rejected). -/
theorem claimC8 :
    (∀ (m : MirrorMaterial) (ext : MaterialExternals)
      (si : SurfaceInteractionData) (arena : List MirrorBsdf)
      (mode : TransportMode) (aml : Bool) (scale_opt : Option Spectrum),
      (((m.compute_scattering_functions ext si arena mode aml
            scale_opt).2.drop arena.length).all
          (fun b => b.bxdfs.all (fun x => (Bxdf.driving x).nonnegb))) = true) ∧
    (∀ (m : UberMaterial) (ext : MaterialExternals)
      (si : SurfaceInteractionData) (ab : List Bsdf) (abx : List Bxdf)
      (mode : TransportMode) (aml : Bool) (scale_opt : Option Spectrum),
      (((m.compute_scattering_functions ext si ab abx mode aml
            scale_opt).2.2.drop abx.length).all
          (fun x => (Bxdf.driving x).nonnegb)) = true) := by
  constructor
  · intro m ext si arena mode aml scale_opt
    rw [mirror_csf_char]
    simp [Bxdf.driving, spectrum_clamp_nonnegb]
  · intro m ext si ab abx mode aml scale_opt
    rw [uber_csf_char]
    simp only [List.drop_left]
    obtain ⟨h1, h2, h3, h4, h5⟩ := uberSpectra_nonneg m ext si
    by_cases c1 : (uberT m ext si).is_black = false <;>
      by_cases c2 : (uberKd m ext si).is_black = false <;>
        by_cases c3 : (uberKs m ext si).is_black = false <;>
          by_cases c4 : (uberKr m ext si).is_black = false <;>
            by_cases c5 : (uberKt m ext si).is_black = false <;>
              simp [uberNewLobes, c1, c2, c3, c4, c5, Bxdf.driving,
                h1, h2, h3, h4, h5]

/-- C10.  Each call of the mirror and uber compilers appends exactly one
composed BSDF to the BSDF arena and writes that new entry's index into the
interaction (`si.bsdf = some (old arena length)`), even when every candidate
lobe is black. -/
theorem claimC10 :
    (∀ (m : MirrorMaterial) (ext : MaterialExternals)
      (si : SurfaceInteractionData) (arena : List MirrorBsdf)
      (mode : TransportMode) (aml : Bool) (scale_opt : Option Spectrum),
      ∃ b : MirrorBsdf,
        (m.compute_scattering_functions ext si arena mode aml scale_opt).2 =
          arena ++ [b] ∧
        (m.compute_scattering_functions ext si arena mode aml
          scale_opt).1.bsdf = some arena.length) ∧
    (∀ (m : UberMaterial) (ext : MaterialExternals)
      (si : SurfaceInteractionData) (ab : List Bsdf) (abx : List Bxdf)
      (mode : TransportMode) (aml : Bool) (scale_opt : Option Spectrum),
      ∃ b : Bsdf,
        (m.compute_scattering_functions ext si ab abx mode aml scale_opt).2.1 =
          ab ++ [b] ∧
        (m.compute_scattering_functions ext si ab abx mode aml
          scale_opt).1.bsdf = some ab.length) := by
  constructor
  · intro m ext si arena mode aml scale_opt
    exact ⟨_, by rw [mirror_csf_char], by rw [mirror_csf_char]⟩
  · intro m ext si ab abx mode aml scale_opt
    exact ⟨_, by rw [uber_csf_char], by rw [uber_csf_char]⟩

/-! ## Witnesses -/

theorem claimC1_witness :
    (wIsectB.get_bsdf wStA.arenaBsdf = some wBsdf) ∧
    directLoop wSampler wIsectB (⟨0, 0, 1⟩ : Vec3) (⟨0, 0, 1⟩ : Vec3)
        [wLight, wLight] (Spectrum.new 0) wStA =
      .ok (Spectrum.new 0 + lightTermsSum wSampler wBsdf wIsectB.common
          (⟨0, 0, 1⟩ : Vec3) (⟨0, 0, 1⟩ : Vec3) [wLight, wLight] wStA.samplerIdx,
        { wStA with samplerIdx := wStA.samplerIdx + ([wLight, wLight] : List Light).length }) :=
  ⟨rfl, claimC1 wSampler wIsectB ⟨0, 0, 1⟩ ⟨0, 0, 1⟩ [wLight, wLight]
    (Spectrum.new 0) wStA wBsdf rfl⟩

theorem claimC2_witness :
    (wIsectB.get_bsdf wStA.arenaBsdf = some wBsdf) ∧
    (0 < wRV.pdf ∧ wRV.f.is_black = false ∧
      vec3_abs_dot_nrmf wRV.wi wIsectB.shading.n ≠ 0) ∧
    (∃ rd : Ray, rd.o = wIsectB.common.p ∧ rd.d = wRV.wi ∧
      specular_reflect wInteg1 wSceneMiss wSampler 1 wRay wIsectB wStA 0 =
        Except.map (fun p => (wRV.f * p.1 *
            Spectrum.new (vec3_abs_dot_nrmf wRV.wi wIsectB.shading.n / wRV.pdf),
            p.2))
          (li wInteg1 wSceneMiss wSampler 1 rd
            { wStA with samplerIdx := wStA.samplerIdx + 1 } (0 + 1))) := by
  have hcond : 0 < wRV.pdf ∧ wRV.f.is_black = false ∧
      vec3_abs_dot_nrmf wRV.wi wIsectB.shading.n ≠ 0 := by
    refine ⟨?_, ?_, ?_⟩
    · norm_num [wRV, wBsdf, wIsectB, wIsect, wShading, wSampler, wStA]
    · simp [wRV, wBsdf, wIsectB, wIsect, wShading, wSampler, wStA,
        Spectrum.is_black, Spectrum.new]
    · norm_num [wRV, wBsdf, wIsectB, wIsect, wShading, wSampler, wStA,
        vec3_abs_dot_nrmf, vec3_dot_nrmf]
  exact ⟨rfl, hcond,
    ((claimC2 wInteg1 wSceneMiss wSampler 1 wRay wIsectB wStA 0).1
      wBsdf wRV rfl rfl).1 hcond⟩

theorem claimC3_witness :
    (wSceneHit.intersect wRay = some wIsect) ∧ (wIsect.csf = some wComp) ∧
    (wInteg1.max_depth ≤ 0 + 1) ∧
    li wInteg1 wSceneHit wSampler (1 + 1) wRay wSt 0 =
      directLoop wSampler
        { wIsect with shading := wComp.shading, bsdf := some wSt.arenaBsdf.length }
        wIsect.shading.n wIsect.common.wo wSceneHit.lights
        (wIsect.le wIsect.common.wo)
        { wSt with arenaBsdf := wSt.arenaBsdf ++ [wComp.bsdf] } :=
  ⟨rfl, rfl, Nat.le_refl 1,
    (claimC3 wInteg1 wSceneHit wSampler 1 wRay wSt 0 wIsect wComp rfl rfl).1
      (Nat.le_refl 1)⟩

theorem claimC4_witness :
    (wScenePass.intersect wRay = some wIsectPass) ∧ (wIsectPass.csf = none) ∧
    li wInteg1 wScenePass wSampler (1 + 1) wRay wSt 0 =
      li wInteg1 wScenePass wSampler 1 (wIsectPass.spawn_ray wRay.d) wSt 0 :=
  ⟨rfl, rfl,
    claimC4 wInteg1 wScenePass wSampler 1 wRay wSt 0 wIsectPass rfl rfl⟩

theorem claimC5_witness :
    (wSceneMiss.intersect wRay = none) ∧
    (li wInteg1 wSceneMiss wSampler (1 + 1) wRay wSt 0 =
      .ok (wSceneMiss.lights.foldl (fun l light => l + light.le wRay) 0, wSt)) ∧
    (wSceneMiss.lights = [wLight]) ∧
    (li wInteg1 wSceneMiss wSampler (1 + 1) wRay wSt 0 =
      .ok (wLight.le wRay, wSt)) :=
  ⟨rfl, (claimC5 wInteg1 wSceneMiss wSampler 1 wRay wSt 0 rfl).1, rfl,
    (claimC5 wInteg1 wSceneMiss wSampler 1 wRay wSt 0 rfl).2 wLight rfl⟩

theorem claimC6_witness :
    (wUber.opacity (uberSi wUber wExt wIsectPass) = Spectrum.new 1) ∧
    (wUber.kt (uberSi wUber wExt wIsectPass) = Spectrum.new 0) ∧
    (wUber.kr (uberSi wUber wExt wIsectPass) = Spectrum.new 0) ∧
    ((((wUber.compute_scattering_functions wExt wIsectPass [] []
          TransportMode.Radiance false none).2.2.drop
            ([] : List Bxdf).length).all
        (fun x => !x.isSpecTrans)) = true ∧
      ∃ b : Bsdf,
        (wUber.compute_scattering_functions wExt wIsectPass [] []
            TransportMode.Radiance false none).2.1 = [] ++ [b] ∧
        b.eta = uberE wUber wExt wIsectPass) :=
  ⟨rfl, rfl, rfl,
    (claimC6 wUber wExt wIsectPass [] [] TransportMode.Radiance false
      none).2.1 rfl rfl rfl⟩

theorem claimC9_witness :
    (wIsect.get_bsdf wSt.arenaBsdf = none) ∧
    (¬((wLight.sample_li wIsect.common (wSampler wSt.samplerIdx)).li.is_black = true ∨
      (wLight.sample_li wIsect.common (wSampler wSt.samplerIdx)).pdf = 0)) ∧
    (directLoop wSampler wIsect (⟨0, 0, 1⟩ : Vec3) (⟨0, 0, 1⟩ : Vec3) [wLight]
        (Spectrum.new 0) wSt = .error .panicked) ∧
    (li wInteg1 wSceneHit wSampler 2 wRay wSt 0 ≠ .error .panicked) := by
  have hskip : ¬((wLight.sample_li wIsect.common (wSampler wSt.samplerIdx)).li.is_black = true ∨
      (wLight.sample_li wIsect.common (wSampler wSt.samplerIdx)).pdf = 0) := by
    norm_num [wLight, Spectrum.is_black, Spectrum.new]
  exact ⟨rfl, hskip,
    claimC9.2 wSampler wIsect ⟨0, 0, 1⟩ ⟨0, 0, 1⟩ wLight [] (Spectrum.new 0)
      wSt rfl hskip,
    claimC9.1 wInteg1 wSceneHit wSampler 2 wRay wSt 0⟩

end RsPbrt
